import Mathlib

/-!
Verification development for the documenso excerpts:
(a) the Stripe payment-webhook handler (src/unnamed/part_000),
(b) the document detail page (apps/web/.../documents/[id]/page.tsx),
(c) the two-factor re-authentication dialog
    (apps/web/.../sign/[token]/document-action-auth-2fa.tsx).

The TypeScript code is shallowly embedded: handlers become pure functions
from an explicit environment (database contents, cache contents, template
file bytes) and request to a response plus the database records created.
Library calls that live outside the excerpted files (PDF stamping, redis,
prisma, react-hook-form, AppError) are modelled at their call-boundary
behaviour, which is noted on each such definition.
-/

namespace Documenso

/-! ## PDF values

The two stamping operations `insertImageInPDF` and `insertTextInPDF` are
library calls (`@documenso/lib/server-only/pdf/...`) outside the excerpted
files. Their results are modelled as free constructors recording which
operation ran and with which arguments, which is exactly what the claims
about them quantify over. -/

inductive PDFDoc where
  | base (bytes : String)
  | withImage (orig : PDFDoc) (image : String) (x y page : Nat)
  | withText (orig : PDFDoc) (text : String) (x y page : Nat)
deriving DecidableEq, Repr

/-- Modelled from the spec: pixel-position stamping of a signature image
onto a PDF page is a single library call; its result is recorded
abstractly. -/
def insertImageInPDF (pdf : PDFDoc) (image : String) (x y page : Nat) : PDFDoc :=
  PDFDoc.withImage pdf image x y page

/-- Modelled from the spec: pixel-position stamping of typed text onto a
PDF page is a single library call; its result is recorded abstractly. -/
def insertTextInPDF (pdf : PDFDoc) (text : String) (x y page : Nat) : PDFDoc :=
  PDFDoc.withText pdf text x y page

/-! ## Database record types (prisma models, as used by the handler) -/

inductive DocumentStatus where
  | DRAFT | PENDING | COMPLETED
deriving DecidableEq, Repr

inductive ReadStatus where
  | NOT_OPENED | OPENED
deriving DecidableEq, Repr

inductive SendStatus where
  | NOT_SENT | SENT
deriving DecidableEq, Repr

inductive SigningStatus where
  | NOT_SIGNED | SIGNED
deriving DecidableEq, Repr

inductive FieldType where
  | SIGNATURE | TEXT
deriving DecidableEq, Repr

/-- A `User` row: `name` is nullable in the prisma schema
(`user.name` is used with `??` and `||` in the handler). -/
structure User where
  id : Nat
  name : Option String
  email : String
deriving DecidableEq, Repr

/-- A created `Document` row. `document` holds the (base64) PDF content,
modelled as a `PDFDoc`. -/
structure DocumentRec where
  id : Nat
  title : String
  status : DocumentStatus
  userId : Nat
  document : PDFDoc
deriving DecidableEq, Repr

/-- A created `Recipient` row. -/
structure RecipientRec where
  id : Nat
  name : String
  email : String
  token : String
  readStatus : ReadStatus
  sendStatus : SendStatus
  signingStatus : SigningStatus
  documentId : Nat
deriving DecidableEq, Repr

/-- A created `Field` row. `positionX`/`positionY` are prisma Decimals in
the schema; the handler only ever writes the integers 77 and 638 and reads
them back with `.toNumber()`, so they are modelled as `Nat`. -/
structure FieldRec where
  id : Nat
  documentId : Nat
  recipientId : Nat
  type : FieldType
  page : Nat
  positionX : Nat
  positionY : Nat
  inserted : Bool
  customText : String
deriving DecidableEq, Repr

/-- A created `Signature` row. `signatureImageAsBase64` is passed as
`signatureDataUrl || undefined` and `typedSignature` as
`signatureDataUrl ? '' : signatureText`, both nullable. -/
structure SignatureRec where
  fieldId : Nat
  recipientId : Nat
  signatureImageAsBase64 : Option String
  typedSignature : Option String
deriving DecidableEq, Repr

/-! ## Webhook request and environment -/

/-- Checkout-session metadata (`session.metadata`), which may itself be
absent; each key may be absent. -/
structure SessionMetadata where
  source : Option String
  signatureText : Option String
  signatureDataUrl : Option String
deriving DecidableEq, Repr

/-- The parts of the incoming request the handler reads: the
`stripe-signature` header (absent, or a string; a non-string header value
is coerced to `''` by the handler and is modelled as `some ""`), the
constructed event's type, and the checkout session's metadata and numeric
client reference id. -/
structure WebhookRequest where
  stripeSignature : Option String
  eventType : String
  metadata : Option SessionMetadata
  clientReferenceId : Nat
deriving DecidableEq, Repr

/-- The handler's environment: the `User` table, the redis cache
(`redis.get`), the template PDF bytes read from
`./public/documenso-supporter-pledge.pdf`, and the random recipient token
from `randomBytes(16).toString('hex')`. -/
structure WebhookEnv where
  users : List User
  redisGet : String → Option String
  templatePdf : String
  freshToken : String

/-- The observable outcome of one webhook request: the HTTP status of the
response, the rows present in each table afterwards that the request
created (with the document row reflecting the final `document.update`),
and how many `user.findFirst` lookups were performed. -/
structure HandlerOutcome where
  status : Nat
  documents : List DocumentRec
  recipients : List RecipientRec
  fields : List FieldRec
  signatures : List SignatureRec
  userLookups : Nat
deriving DecidableEq, Repr

/-- An outcome with no records created. -/
def emptyOutcome (status lookups : Nat) : HandlerOutcome :=
  { status := status, documents := [], recipients := [], fields := [],
    signatures := [], userLookups := lookups }

/-- `session.metadata?.source`. -/
def metaSource (req : WebhookRequest) : Option String :=
  req.metadata.bind SessionMetadata.source

/-- `session.metadata?.signatureText`. -/
def metaSignatureText (req : WebhookRequest) : Option String :=
  req.metadata.bind SessionMetadata.signatureText

/-- `session.metadata?.signatureDataUrl` (the cache key). -/
def metaSignatureDataUrl (req : WebhookRequest) : Option String :=
  req.metadata.bind SessionMetadata.signatureDataUrl

/-- Lines 74: `session.metadata?.signatureText || user.name`; a missing or
empty (JS-falsy) metadata value falls back to the user's (nullable) name. -/
def sessionSignatureText (req : WebhookRequest) (user : User) : Option String :=
  match metaSignatureText req with
  | some t => if t = "" then user.name else some t
  | none => user.name

/-- Lines 75-83: the `signatureDataUrl` local. It starts as `''`; when the
metadata carries a (JS-truthy, i.e. nonempty) cache key, the handler reads
`redis.get('signature:' + key)` and keeps the result when truthy. An empty
result string is left as `''`, which every later use tests for. -/
def cachedSignatureImage (env : WebhookEnv) (req : WebhookRequest) : String :=
  match metaSignatureDataUrl req with
  | some k =>
      if k = "" then ""
      else
        match env.redisGet ("signature:" ++ k) with
        | some v => v
        | none => ""
  | none => ""

/-- Lines 85-158: the record creation, stamping and persistence performed
for a `landing` checkout once the user is found. Row ids are not read by
the code except to link the rows, so each created row gets id 1. -/
def landingOutcome (env : WebhookEnv) (req : WebhookRequest) (user : User) :
    HandlerOutcome :=
  let signatureText : Option String := sessionSignatureText req user
  let signatureDataUrl : String := cachedSignatureImage env req
  let doc0 : DocumentRec :=
    { id := 1, title := "Documenso Supporter Pledge.pdf",
      status := DocumentStatus.COMPLETED, userId := user.id,
      document := PDFDoc.base env.templatePdf }
  let recipient : RecipientRec :=
    { id := 1, name := user.name.getD "", email := user.email,
      token := env.freshToken, readStatus := ReadStatus.OPENED,
      sendStatus := SendStatus.SENT, signingStatus := SigningStatus.SIGNED,
      documentId := doc0.id }
  let field : FieldRec :=
    { id := 1, documentId := doc0.id, recipientId := recipient.id,
      type := FieldType.SIGNATURE, page := 0, positionX := 77,
      positionY := 638, inserted := false, customText := "" }
  let stamped : PDFDoc :=
    if signatureDataUrl = "" then
      insertTextInPDF doc0.document (signatureText.getD "")
        field.positionX field.positionY field.page
    else
      insertImageInPDF doc0.document signatureDataUrl
        field.positionX field.positionY field.page
  let sigRec : SignatureRec :=
    { fieldId := field.id, recipientId := recipient.id,
      signatureImageAsBase64 :=
        if signatureDataUrl = "" then none else some signatureDataUrl,
      typedSignature :=
        if signatureDataUrl = "" then signatureText else some "" }
  { status := 200,
    documents := [{ doc0 with document := stamped }],
    recipients := [recipient],
    fields := [field],
    signatures := [sigRec],
    userLookups := 1 }

/-- The webhook handler (src/unnamed/part_000, `handler`). The
`stripe-signature` header is coerced to `''` when absent and rejected with
400 when falsy; `stripe.webhooks.constructEvent` is modelled as yielding
the request's event (verification failure would throw and is outside the
claims); a `checkout.session.completed` event with metadata source
`landing` looks the user up by client reference id, answering 500 when the
user is missing and otherwise creating the records and stamping the PDF;
every `checkout.session.completed` event reaching the end answers 200 and
any other event type answers 400. -/
def handler (env : WebhookEnv) (req : WebhookRequest) : HandlerOutcome :=
  let sig : String := req.stripeSignature.getD ""
  if sig = "" then emptyOutcome 400 0
  else if req.eventType = "checkout.session.completed" then
    if metaSource req = some "landing" then
      match env.users.find? (fun u => u.id == req.clientReferenceId) with
      | none => emptyOutcome 500 1
      | some user => landingOutcome env req user
    else emptyOutcome 200 0
  else emptyOutcome 400 0

/-! ## Document detail page (apps/web/.../documents/[id]/page.tsx) -/

/-- The whitespace characters `Number()` strips before converting. -/
def isJsSpace (c : Char) : Bool :=
  c == ' ' || c == '\t' || c == '\n' || c == '\r'

/-- The value of a decimal digit character, `none` on any other
character. -/
def digitVal? (c : Char) : Option Nat :=
  if c.isDigit then some (c.toNat - 48) else none

/-- Reads a run of decimal digits into an accumulator; any non-digit
makes the whole parse fail. -/
def parseDigitsAux : List Char → Nat → Option Nat
  | [], acc => some acc
  | c :: cs, acc =>
      match digitVal? c with
      | some d => parseDigitsAux cs (acc * 10 + d)
      | none => none

/-- A nonempty all-digit character run as a number, `none` otherwise. -/
def parseDigits (l : List Char) : Option Nat :=
  match l with
  | [] => none
  | _ => parseDigitsAux l 0

/-- JavaScript `Number()` conversion of the route's id string, for the
forms the page distinguishes: a blank (empty or all-whitespace) string
converts to 0, an optionally signed digit string converts to that
integer, and any other string is NaN (`none`). (Fractional, hexadecimal
and exponent literals, which `Number()` also accepts, do not occur in the
claims and are not modelled.) -/
def jsNumber (s : String) : Option Int :=
  let t := ((s.data.dropWhile isJsSpace).reverse.dropWhile isJsSpace).reverse
  match t with
  | [] => some 0
  | c :: cs =>
      if c == '-' then (parseDigits cs).map (fun n => -(n : Int))
      else if c == '+' then (parseDigits cs).map Int.ofNat
      else (parseDigits t).map Int.ofNat

/-- The page's environment: the authenticated session's user id and
`getDocumentById`, whose thrown errors the page maps to `null` with
`.catch(() => null)`, so both failure modes are `none`. -/
structure PageEnv where
  sessionUserId : Nat
  getDocumentById : Int → Nat → Option DocumentRec

/-- What a server component request resolves to: a redirect or a rendered
document page. -/
inductive PageResult where
  | redirectTo (path : String)
  | render (doc : DocumentRec)
deriving DecidableEq, Repr

/-- `DocumentPage` (lines 20-86): converts the id with `Number()`,
redirects to `/documents` when the result is falsy (0) or NaN, looks the
document up scoped to the session user, redirects to `/documents` when the
lookup throws or yields nothing, and otherwise renders the document. -/
def DocumentPage (env : PageEnv) (id : String) : PageResult :=
  match jsNumber id with
  | none => PageResult.redirectTo "/documents"
  | some documentId =>
      if documentId = 0 then PageResult.redirectTo "/documents"
      else
        match env.getDocumentById documentId env.sessionUserId with
        | none => PageResult.redirectTo "/documents"
        | some document => PageResult.render document

/-! ## Two-factor re-authentication dialog
(apps/web/.../sign/[token]/document-action-auth-2fa.tsx) -/

/-- `Z2FAAuthFormSchema` (lines 35-40): the token string must be at least
4 and at most 10 characters long. -/
def Z2FAAuthFormSchema (token : String) : Bool :=
  4 ≤ token.length && token.length ≤ 10

/-- A structured application error; `code` is the application-level error
code. -/
structure AppError where
  code : String
deriving DecidableEq, Repr

/-- An error thrown by the caller-supplied `onReauthFormSubmit` callback:
its raw content and the application-level code it parses to. -/
structure ThrownError where
  raw : String
  appCode : String
deriving DecidableEq, Repr

/-- Modelled from the spec: `AppError.parseError` (in
`@documenso/lib/errors/app-error`, not among the excerpted files) parses a
thrown error into a structured application error carrying an error code. -/
def AppError.parseError (err : ThrownError) : AppError :=
  { code := err.appCode }

/-- The component state touched by `onFormSubmit`: the shared
`isCurrentlyAuthenticating` flag, whether the dialog is open (driven by
`onOpenChange`), and the `formErrorCode` state. -/
structure FormState where
  isCurrentlyAuthenticating : Bool
  dialogOpen : Bool
  formErrorCode : Option String
deriving DecidableEq, Repr

/-- How one invocation of the awaited `onReauthFormSubmit` callback ends. -/
inductive CallbackOutcome where
  | ok
  | threw (err : ThrownError)
deriving DecidableEq, Repr

/-- The observable result of one run of `onFormSubmit`: the final
component state, whether the caller-supplied callback was invoked, and the
arguments of the `onOpenChange` calls made. -/
structure SubmitTrace where
  finalState : FormState
  callbackInvoked : Bool
  onOpenChangeCalls : List Bool
deriving DecidableEq, Repr

/-- `onFormSubmit` (lines 63-83): sets `isCurrentlyAuthenticating`, awaits
the callback; on success clears the flag and calls `onOpenChange(false)`;
on a throw clears the flag and stores the parsed error's code in
`formErrorCode`. -/
def onFormSubmit (outcome : CallbackOutcome) (s : FormState) : SubmitTrace :=
  let s1 : FormState := { s with isCurrentlyAuthenticating := true }
  match outcome with
  | CallbackOutcome.ok =>
      { finalState :=
          { s1 with isCurrentlyAuthenticating := false, dialogOpen := false },
        callbackInvoked := true,
        onOpenChangeCalls := [false] }
  | CallbackOutcome.threw err =>
      { finalState :=
          { s1 with
            isCurrentlyAuthenticating := false,
            formErrorCode := some (AppError.parseError err).code },
        callbackInvoked := true,
        onOpenChangeCalls := [] }

/-- Modelled from the spec: react-hook-form's `handleSubmit` with
`zodResolver(Z2FAAuthFormSchema)` (lines 54-59, 119) invokes the submit
handler only on values the schema accepts; an invalid token is rejected
client-side and the handler — and hence the caller-supplied callback — is
never invoked. -/
def submit2FAForm (outcome : CallbackOutcome) (s : FormState) (token : String) :
    SubmitTrace :=
  if Z2FAAuthFormSchema token then onFormSubmit outcome s
  else { finalState := s, callbackInvoked := false, onOpenChangeCalls := [] }

/-- The error alert of the component tree (lines 138-145). -/
structure ErrorAlert where
  title : String
  description : String
deriving DecidableEq, Repr

/-- Lines 138-145: the error alert is rendered exactly when
`formErrorCode` is set, and its title and description are the fixed
strings of the JSX — the code value itself is not interpolated anywhere. -/
def renderedErrorAlert (formErrorCode : Option String) : Option ErrorAlert :=
  match formErrorCode with
  | some _ =>
      some { title := "Unauthorized",
             description :=
               "We were unable to verify your details. Please try again or contact support" }
  | none => none

/-! ## Concrete fixtures used to evaluate the embedding -/

/-- An environment with one user (id 7) and one cached signature image
under cache key `K1`. -/
def envA : WebhookEnv :=
  { users := [{ id := 7, name := some "Ada", email := "ada@example.com" }],
    redisGet := fun k => if k = "signature:K1" then some "IMG" else none,
    templatePdf := "TPL",
    freshToken := "tok" }

/-- An environment whose only user (id 3) has a null name and an empty
cache. -/
def envNoName : WebhookEnv :=
  { users := [{ id := 3, name := none, email := "noname@example.com" }],
    redisGet := fun _ => none,
    templatePdf := "TPL",
    freshToken := "tok" }

/-- A `landing` completed-checkout request for user 7 carrying cache key
`K1`. -/
def reqImg : WebhookRequest :=
  { stripeSignature := some "shhh",
    eventType := "checkout.session.completed",
    metadata := some { source := some "landing", signatureText := none,
                       signatureDataUrl := some "K1" },
    clientReferenceId := 7 }

/-- The same request without a `stripe-signature` header. -/
def reqNoSig : WebhookRequest :=
  { reqImg with stripeSignature := none }

/-- The same request with a client reference id matching no user of
`envA`. -/
def reqNoUser : WebhookRequest :=
  { reqImg with clientReferenceId := 9 }

/-- A completed-checkout request with no metadata at all (source absent)
and a client reference id matching no user of `envA`. -/
def reqOther : WebhookRequest :=
  { stripeSignature := some "shhh",
    eventType := "checkout.session.completed",
    metadata := none,
    clientReferenceId := 9 }

/-- A `landing` completed-checkout request for user 3 with neither a
`signatureText` nor a `signatureDataUrl` metadata entry. -/
def reqPlainLanding : WebhookRequest :=
  { stripeSignature := some "shhh",
    eventType := "checkout.session.completed",
    metadata := some { source := some "landing", signatureText := none,
                       signatureDataUrl := none },
    clientReferenceId := 3 }

/-- A stored document row, owned by user 7 under id 42. -/
def docA : DocumentRec :=
  { id := 42, title := "contract.pdf", status := DocumentStatus.PENDING,
    userId := 7, document := PDFDoc.base "BYTES" }

/-- A page environment where only document 42 of user 7 resolves. -/
def pageEnvA : PageEnv :=
  { sessionUserId := 7,
    getDocumentById := fun n uid =>
      if n == 42 && uid == 7 then some docA else none }

/-- An initial dialog state: open, idle, no error code. -/
def formS0 : FormState :=
  { isCurrentlyAuthenticating := false, dialogOpen := true,
    formErrorCode := none }

/-- A thrown callback error and the code it parses to. -/
def errE1 : ThrownError :=
  { raw := "raw failure detail", appCode := "UNAUTHORIZED_2FA" }

/-! ## Branch lemmas for the webhook handler -/

/-- A falsy `stripe-signature` header short-circuits to a bare 400. -/
theorem handler_nosig_eq (env : WebhookEnv) (req : WebhookRequest)
    (hsig : req.stripeSignature.getD "" = "") :
    handler env req = emptyOutcome 400 0 := by
  simp [handler, hsig]

/-- An event type other than `checkout.session.completed` yields a bare
400. -/
theorem handler_wrongtype_eq (env : WebhookEnv) (req : WebhookRequest)
    (hsig : req.stripeSignature.getD "" ≠ "")
    (hty : req.eventType ≠ "checkout.session.completed") :
    handler env req = emptyOutcome 400 0 := by
  simp [handler, hsig, hty]

/-- A completed checkout whose metadata source is not `landing` yields a
bare 200 with no lookup and no records. -/
theorem handler_nonlanding_eq (env : WebhookEnv) (req : WebhookRequest)
    (hsig : req.stripeSignature.getD "" ≠ "")
    (hty : req.eventType = "checkout.session.completed")
    (hsrc : metaSource req ≠ some "landing") :
    handler env req = emptyOutcome 200 0 := by
  simp [handler, hsig, hty, hsrc]

/-- A `landing` completed checkout whose client reference id matches no
user yields a bare 500 after one lookup. -/
theorem handler_500_eq (env : WebhookEnv) (req : WebhookRequest)
    (hsig : req.stripeSignature.getD "" ≠ "")
    (hty : req.eventType = "checkout.session.completed")
    (hsrc : metaSource req = some "landing")
    (hfind : env.users.find? (fun u => u.id == req.clientReferenceId) = none) :
    handler env req = emptyOutcome 500 1 := by
  simp [handler, hsig, hty, hsrc, hfind]

/-- A `landing` completed checkout with a matching user runs the record
creation and stamping sequence. -/
theorem handler_landing_eq (env : WebhookEnv) (req : WebhookRequest) (user : User)
    (hsig : req.stripeSignature.getD "" ≠ "")
    (hty : req.eventType = "checkout.session.completed")
    (hsrc : metaSource req = some "landing")
    (huser : env.users.find? (fun u => u.id == req.clientReferenceId) = some user) :
    handler env req = landingOutcome env req user := by
  simp [handler, hsig, hty, hsrc, huser]

/-- The single document row the landing path leaves behind: the template,
stamped with the cached image when one was found and with the typed text
otherwise. -/
theorem landingOutcome_documents (env : WebhookEnv) (req : WebhookRequest)
    (user : User) :
    (landingOutcome env req user).documents =
      [{ id := 1, title := "Documenso Supporter Pledge.pdf",
         status := DocumentStatus.COMPLETED, userId := user.id,
         document :=
           if cachedSignatureImage env req = "" then
             insertTextInPDF (PDFDoc.base env.templatePdf)
               ((sessionSignatureText req user).getD "") 77 638 0
           else
             insertImageInPDF (PDFDoc.base env.templatePdf)
               (cachedSignatureImage env req) 77 638 0 }] := rfl

/-- The single field row the landing path creates. -/
theorem landingOutcome_fields (env : WebhookEnv) (req : WebhookRequest)
    (user : User) :
    (landingOutcome env req user).fields =
      [{ id := 1, documentId := 1, recipientId := 1,
         type := FieldType.SIGNATURE, page := 0, positionX := 77,
         positionY := 638, inserted := false, customText := "" }] := rfl

/-- The single signature row the landing path creates. -/
theorem landingOutcome_signatures (env : WebhookEnv) (req : WebhookRequest)
    (user : User) :
    (landingOutcome env req user).signatures =
      [{ fieldId := 1, recipientId := 1,
         signatureImageAsBase64 :=
           if cachedSignatureImage env req = "" then none
           else some (cachedSignatureImage env req),
         typedSignature :=
           if cachedSignatureImage env req = "" then
             sessionSignatureText req user
           else some "" }] := rfl

/-- Without a nonempty metadata cache key whose cached value is nonempty,
the `signatureDataUrl` local keeps its falsy initial value. -/
theorem cachedSignatureImage_empty (env : WebhookEnv) (req : WebhookRequest)
    (hno : ¬∃ k, metaSignatureDataUrl req = some k ∧ k ≠ "" ∧
        ∃ v, env.redisGet ("signature:" ++ k) = some v ∧ v ≠ "") :
    cachedSignatureImage env req = "" := by
  unfold cachedSignatureImage
  cases hk : metaSignatureDataUrl req with
  | none => rfl
  | some k =>
      by_cases hkne : k = ""
      · simp [hkne]
      · cases hv : env.redisGet ("signature:" ++ k) with
        | none => simp [hkne, hv]
        | some v =>
            by_cases hvne : v = ""
            · simp [hkne, hv, hvne]
            · exact absurd ⟨k, hk, hkne, v, hv, hvne⟩ hno

/-! ## Claim theorems -/

/-- C1: on a handled `landing` checkout (signature header truthy, event
`checkout.session.completed`, metadata source `landing`, user found),
when the metadata supplies a (truthy) signature cache key and the cache
holds a nonempty value for it, the persisted document PDF is
`insertImageInPDF` of the template applied to that cached image;
otherwise — no cache key or a cache miss (including an empty cached
value) — it is `insertTextInPDF` of the template applied to the typed
signature text, which is the metadata `signatureText` when present
(truthy) and otherwise the user's name. -/
theorem c1_stamp_selection (env : WebhookEnv) (req : WebhookRequest)
    (user : User)
    (hsig : req.stripeSignature.getD "" ≠ "")
    (hty : req.eventType = "checkout.session.completed")
    (hsrc : metaSource req = some "landing")
    (huser : env.users.find? (fun u => u.id == req.clientReferenceId) = some user) :
    (∀ k v, metaSignatureDataUrl req = some k → k ≠ "" →
        env.redisGet ("signature:" ++ k) = some v → v ≠ "" →
        ∃ d, (handler env req).documents = [d] ∧
          d.document = insertImageInPDF (PDFDoc.base env.templatePdf) v 77 638 0) ∧
    ((¬∃ k, metaSignatureDataUrl req = some k ∧ k ≠ "" ∧
        ∃ v, env.redisGet ("signature:" ++ k) = some v ∧ v ≠ "") →
        ∃ d, (handler env req).documents = [d] ∧
          ∃ txt, d.document = insertTextInPDF (PDFDoc.base env.templatePdf) txt 77 638 0 ∧
            (∀ t, metaSignatureText req = some t → t ≠ "" → txt = t) ∧
            ((metaSignatureText req = none ∨ metaSignatureText req = some "") →
              txt = user.name.getD "")) := by
  rw [handler_landing_eq env req user hsig hty hsrc huser]
  constructor
  · intro k v hk hkne hv hvne
    have himg : cachedSignatureImage env req = v := by
      simp [cachedSignatureImage, hk, hkne, hv]
    rw [landingOutcome_documents]
    exact ⟨_, rfl, by simp [himg, hvne]⟩
  · intro hno
    have himg : cachedSignatureImage env req = "" :=
      cachedSignatureImage_empty env req hno
    rw [landingOutcome_documents]
    refine ⟨_, rfl, (sessionSignatureText req user).getD "", by simp [himg], ?_, ?_⟩
    · intro t ht htne
      simp [sessionSignatureText, ht, htne]
    · rintro (h | h) <;> simp [sessionSignatureText, h]

/-- Witness for C1: with the cache key `K1` resolving to image `IMG`, the
persisted PDF is the image-stamped template. -/
theorem c1_stamp_selection_witness :
    ∃ d, (handler envA reqImg).documents = [d] ∧
      d.document = insertImageInPDF (PDFDoc.base envA.templatePdf) "IMG" 77 638 0 :=
  (c1_stamp_selection envA reqImg
      { id := 7, name := some "Ada", email := "ada@example.com" }
      (by decide) rfl rfl (by decide)).1
    "K1" "IMG" rfl (by decide) (by decide) (by decide)

/-- C3 counterexample: the claim quantifies over every
`checkout.session.completed` event whose client reference id matches no
user, but a completed checkout whose metadata source is not `landing`
never performs the lookup: with no metadata and a reference id matching no
user of `envA`, the handler answers 200, not the claimed 500. -/
theorem c3_claim_counterexample :
    reqOther.eventType = "checkout.session.completed" ∧
    envA.users.find? (fun u => u.id == reqOther.clientReferenceId) = none ∧
    (handler envA reqOther).status = 200 ∧
    ¬(handler envA reqOther).status = 500 := by
  have h : handler envA reqOther = emptyOutcome 200 0 :=
    handler_nonlanding_eq envA reqOther (by decide) rfl (by decide)
  rw [h]
  exact ⟨rfl, by decide, rfl, by decide⟩

/-- C3 (amended): for every `checkout.session.completed` event with
metadata source `landing` whose client reference id matches no existing
user, the handler answers 500 and creates no document, recipient, field
or signature records. -/
theorem c3_landing_user_missing (env : WebhookEnv) (req : WebhookRequest)
    (hsig : req.stripeSignature.getD "" ≠ "")
    (hty : req.eventType = "checkout.session.completed")
    (hsrc : metaSource req = some "landing")
    (hfind : env.users.find? (fun u => u.id == req.clientReferenceId) = none) :
    (handler env req).status = 500 ∧
    (handler env req).documents = [] ∧
    (handler env req).recipients = [] ∧
    (handler env req).fields = [] ∧
    (handler env req).signatures = [] := by
  rw [handler_500_eq env req hsig hty hsrc hfind]
  exact ⟨rfl, rfl, rfl, rfl, rfl⟩

/-- Witness for the amended C3: a `landing` checkout for the unknown user
id 9 answers 500 with no records created. -/
theorem c3_landing_user_missing_witness :
    (handler envA reqNoUser).status = 500 ∧
    (handler envA reqNoUser).documents = [] ∧
    (handler envA reqNoUser).recipients = [] ∧
    (handler envA reqNoUser).fields = [] ∧
    (handler envA reqNoUser).signatures = [] :=
  c3_landing_user_missing envA reqNoUser (by decide) rfl rfl (by decide)

/-- C4: on every handled `landing` checkout the signature field row is
created with page 0, positionX 77 and positionY 638, and the stamping
operation — image or text insertion — runs at exactly those coordinates
and page. -/
theorem c4_field_and_stamp_coordinates (env : WebhookEnv)
    (req : WebhookRequest) (user : User)
    (hsig : req.stripeSignature.getD "" ≠ "")
    (hty : req.eventType = "checkout.session.completed")
    (hsrc : metaSource req = some "landing")
    (huser : env.users.find? (fun u => u.id == req.clientReferenceId) = some user) :
    (∃ f, (handler env req).fields = [f] ∧
      f.type = FieldType.SIGNATURE ∧ f.page = 0 ∧
      f.positionX = 77 ∧ f.positionY = 638) ∧
    (∃ d, (handler env req).documents = [d] ∧
      ((∃ img, d.document =
          insertImageInPDF (PDFDoc.base env.templatePdf) img 77 638 0) ∨
       (∃ txt, d.document =
          insertTextInPDF (PDFDoc.base env.templatePdf) txt 77 638 0))) := by
  rw [handler_landing_eq env req user hsig hty hsrc huser]
  constructor
  · rw [landingOutcome_fields]
    exact ⟨_, rfl, rfl, rfl, rfl, rfl⟩
  · rw [landingOutcome_documents]
    refine ⟨_, rfl, ?_⟩
    by_cases himg : cachedSignatureImage env req = ""
    · exact Or.inr ⟨(sessionSignatureText req user).getD "", by simp [himg]⟩
    · exact Or.inl ⟨cachedSignatureImage env req, by simp [himg]⟩

/-- Witness for C4: the handled checkout of `reqImg` creates the field at
page 0, x 77, y 638 and stamps at those coordinates. -/
theorem c4_field_and_stamp_coordinates_witness :
    (∃ f, (handler envA reqImg).fields = [f] ∧
      f.type = FieldType.SIGNATURE ∧ f.page = 0 ∧
      f.positionX = 77 ∧ f.positionY = 638) ∧
    (∃ d, (handler envA reqImg).documents = [d] ∧
      ((∃ img, d.document =
          insertImageInPDF (PDFDoc.base envA.templatePdf) img 77 638 0) ∨
       (∃ txt, d.document =
          insertTextInPDF (PDFDoc.base envA.templatePdf) txt 77 638 0))) :=
  c4_field_and_stamp_coordinates envA reqImg
    { id := 7, name := some "Ada", email := "ada@example.com" }
    (by decide) rfl rfl (by decide)

/-- C8: a `checkout.session.completed` event whose metadata source is
absent or differs from `landing` answers 200 without looking any user up
and without creating any document, recipient, field or signature
records. -/
theorem c8_non_landing_frame (env : WebhookEnv) (req : WebhookRequest)
    (hsig : req.stripeSignature.getD "" ≠ "")
    (hty : req.eventType = "checkout.session.completed")
    (hsrc : metaSource req ≠ some "landing") :
    (handler env req).status = 200 ∧
    (handler env req).userLookups = 0 ∧
    (handler env req).documents = [] ∧
    (handler env req).recipients = [] ∧
    (handler env req).fields = [] ∧
    (handler env req).signatures = [] := by
  rw [handler_nonlanding_eq env req hsig hty hsrc]
  exact ⟨rfl, rfl, rfl, rfl, rfl, rfl⟩

/-- Witness for C8: a completed checkout with no metadata answers 200 and
touches nothing. -/
theorem c8_non_landing_frame_witness :
    (handler envA reqOther).status = 200 ∧
    (handler envA reqOther).userLookups = 0 ∧
    (handler envA reqOther).documents = [] ∧
    (handler envA reqOther).recipients = [] ∧
    (handler envA reqOther).fields = [] ∧
    (handler envA reqOther).signatures = [] :=
  c8_non_landing_frame envA reqOther (by decide) rfl (by decide)

/-- C9 counterexample: when the user's name is null and the metadata
carries neither a signature text nor a cache key, the handler stamps the
empty string but stores `typedSignature` as null, so the stored
`typedSignature` is not the stamped text as the claim states. -/
theorem c9_claim_counterexample :
    ∃ s d,
      (handler envNoName reqPlainLanding).signatures = [s] ∧
      (handler envNoName reqPlainLanding).documents = [d] ∧
      d.document =
        insertTextInPDF (PDFDoc.base envNoName.templatePdf) "" 77 638 0 ∧
      s.signatureImageAsBase64 = none ∧
      s.typedSignature = none ∧
      ¬s.typedSignature = some "" := by
  refine
    ⟨{ fieldId := 1, recipientId := 1, signatureImageAsBase64 := none, typedSignature := none },
     { id := 1, title := "Documenso Supporter Pledge.pdf", status := DocumentStatus.COMPLETED, userId := 3, document := insertTextInPDF (PDFDoc.base envNoName.templatePdf) "" 77 638 0 },
     rfl, rfl, rfl, rfl, rfl, by decide⟩

/-- C9 (amended): every signature row created by the handler stores at
most one signing modality: when a cached image was used,
`signatureImageAsBase64` is that (nonempty) image and `typedSignature` is
the empty string; when text was stamped, `signatureImageAsBase64` is
unset and the stamped text is the stored `typedSignature` with null read
as the empty string — never both populated. -/
theorem c9_single_modality (env : WebhookEnv) (req : WebhookRequest)
    (user : User)
    (hsig : req.stripeSignature.getD "" ≠ "")
    (hty : req.eventType = "checkout.session.completed")
    (hsrc : metaSource req = some "landing")
    (huser : env.users.find? (fun u => u.id == req.clientReferenceId) = some user) :
    ∃ s, (handler env req).signatures = [s] ∧
      ((∃ img, img ≠ "" ∧ s.signatureImageAsBase64 = some img ∧
          s.typedSignature = some "" ∧
          ∃ d, (handler env req).documents = [d] ∧
            d.document =
              insertImageInPDF (PDFDoc.base env.templatePdf) img 77 638 0) ∨
       (s.signatureImageAsBase64 = none ∧
          ∃ d, (handler env req).documents = [d] ∧
            d.document =
              insertTextInPDF (PDFDoc.base env.templatePdf)
                (s.typedSignature.getD "") 77 638 0)) := by
  rw [handler_landing_eq env req user hsig hty hsrc huser,
    landingOutcome_signatures, landingOutcome_documents]
  refine ⟨_, rfl, ?_⟩
  by_cases himg : cachedSignatureImage env req = ""
  · refine Or.inr ⟨by simp [himg], _, rfl, ?_⟩
    simp [himg]
  · refine Or.inl ⟨cachedSignatureImage env req, himg, by simp [himg],
      by simp [himg], _, rfl, by simp [himg]⟩

/-- Witness for the amended C9: the image checkout of `reqImg` stores the
image with an empty typed signature. -/
theorem c9_single_modality_witness :
    ∃ s, (handler envA reqImg).signatures = [s] ∧
      ((∃ img, img ≠ "" ∧ s.signatureImageAsBase64 = some img ∧
          s.typedSignature = some "" ∧
          ∃ d, (handler envA reqImg).documents = [d] ∧
            d.document =
              insertImageInPDF (PDFDoc.base envA.templatePdf) img 77 638 0) ∨
       (s.signatureImageAsBase64 = none ∧
          ∃ d, (handler envA reqImg).documents = [d] ∧
            d.document =
              insertTextInPDF (PDFDoc.base envA.templatePdf)
                (s.typedSignature.getD "") 77 638 0)) :=
  c9_single_modality envA reqImg
    { id := 7, name := some "Ada", email := "ada@example.com" }
    (by decide) rfl rfl (by decide)

/-- C2: the handler answers 200 exactly when the signature header is
truthy, the event type is `checkout.session.completed`, and no
user-not-found failure occurs on the `landing` path; it answers 400
whenever the signature header is absent or the event type differs; and it
answers 500 when the `landing` lookup by client reference id finds no
user. -/
theorem c2_status_mapping (env : WebhookEnv) (req : WebhookRequest) :
    ((handler env req).status = 200 ↔
      (req.stripeSignature.getD "" ≠ "" ∧
       req.eventType = "checkout.session.completed" ∧
       ¬(metaSource req = some "landing" ∧
         env.users.find? (fun u => u.id == req.clientReferenceId) = none))) ∧
    ((req.stripeSignature = none ∨
      req.eventType ≠ "checkout.session.completed") →
      (handler env req).status = 400) ∧
    ((req.stripeSignature.getD "" ≠ "" ∧
      req.eventType = "checkout.session.completed" ∧
      metaSource req = some "landing" ∧
      env.users.find? (fun u => u.id == req.clientReferenceId) = none) →
      (handler env req).status = 500) := by
  refine ⟨⟨?_, ?_⟩, ?_, ?_⟩
  · intro h200
    by_cases hsig : req.stripeSignature.getD "" = ""
    · rw [handler_nosig_eq env req hsig] at h200
      exact absurd h200 (by decide)
    · by_cases hty : req.eventType = "checkout.session.completed"
      · refine ⟨hsig, hty, ?_⟩
        rintro ⟨hsrc, hfind⟩
        rw [handler_500_eq env req hsig hty hsrc hfind] at h200
        exact absurd h200 (by decide)
      · rw [handler_wrongtype_eq env req hsig hty] at h200
        exact absurd h200 (by decide)
  · rintro ⟨hsig, hty, hnot⟩
    by_cases hsrc : metaSource req = some "landing"
    · cases hfind : env.users.find? (fun u => u.id == req.clientReferenceId) with
      | none => exact absurd ⟨hsrc, hfind⟩ hnot
      | some user =>
          rw [handler_landing_eq env req user hsig hty hsrc hfind]
          rfl
    · rw [handler_nonlanding_eq env req hsig hty hsrc]
      rfl
  · rintro (hnone | hty)
    · have hsig : req.stripeSignature.getD "" = "" := by rw [hnone]; rfl
      rw [handler_nosig_eq env req hsig]
      rfl
    · by_cases hsig : req.stripeSignature.getD "" = ""
      · rw [handler_nosig_eq env req hsig]
        rfl
      · rw [handler_wrongtype_eq env req hsig hty]
        rfl
  · rintro ⟨hsig, hty, hsrc, hfind⟩
    rw [handler_500_eq env req hsig hty hsrc hfind]
    rfl

/-- Witness for C2: a request without a signature header answers 400, and
a `landing` checkout whose reference id matches no user answers 500. -/
theorem c2_status_mapping_witness :
    (handler envA reqNoSig).status = 400 ∧
    (handler envA reqNoUser).status = 500 :=
  ⟨(c2_status_mapping envA reqNoSig).2.1 (Or.inl rfl),
   (c2_status_mapping envA reqNoUser).2.2
     ⟨by decide, rfl, rfl, by decide⟩⟩

/-- C5: the document detail page redirects to `/documents` whenever the
id parameter converts to NaN or to the falsy 0, and whenever the
user-scoped lookup fails or finds nothing; it renders a document only
when the id converted to a nonzero number and the lookup scoped to the
session user returned that document. -/
theorem c5_document_page_redirects (env : PageEnv) (id : String) :
    ((jsNumber id = none ∨ jsNumber id = some 0) →
      DocumentPage env id = PageResult.redirectTo "/documents") ∧
    (∀ n, jsNumber id = some n → n ≠ 0 →
      env.getDocumentById n env.sessionUserId = none →
      DocumentPage env id = PageResult.redirectTo "/documents") ∧
    (∀ d, DocumentPage env id = PageResult.render d →
      ∃ n, jsNumber id = some n ∧ n ≠ 0 ∧
        env.getDocumentById n env.sessionUserId = some d) := by
  refine ⟨?_, ?_, ?_⟩
  · rintro (h | h) <;> simp [DocumentPage, h]
  · intro n hn hne hlook
    simp [DocumentPage, hn, hne, hlook]
  · intro d hd
    unfold DocumentPage at hd
    cases hjs : jsNumber id with
    | none =>
        rw [hjs] at hd
        simp at hd
    | some n =>
        rw [hjs] at hd
        dsimp only at hd
        by_cases hz : n = 0
        · rw [if_pos hz] at hd
          simp at hd
        · rw [if_neg hz] at hd
          cases hlook : env.getDocumentById n env.sessionUserId with
          | none =>
              rw [hlook] at hd
              simp at hd
          | some d2 =>
              rw [hlook] at hd
              dsimp only at hd
              injection hd with h
              subst h
              exact ⟨n, rfl, hz, hlook⟩

/-- Witness for C5: the non-numeric id `abc` and the falsy id `0` both
redirect to the document list. -/
theorem c5_document_page_redirects_witness :
    DocumentPage pageEnvA "abc" = PageResult.redirectTo "/documents" ∧
    DocumentPage pageEnvA "0" = PageResult.redirectTo "/documents" :=
  ⟨(c5_document_page_redirects pageEnvA "abc").1 (Or.inl (by decide)),
   (c5_document_page_redirects pageEnvA "0").1 (Or.inr (by decide))⟩

/-- C6: the two-factor form schema accepts a token exactly when its
length lies between 4 and 10 inclusive, and for a token outside that
bound the validated submission never invokes the caller-supplied
callback. -/
theorem c6_token_validation (token : String) :
    (Z2FAAuthFormSchema token = true ↔
      (4 ≤ token.length ∧ token.length ≤ 10)) ∧
    (∀ outcome s, (token.length < 4 ∨ 10 < token.length) →
      (submit2FAForm outcome s token).callbackInvoked = false) := by
  constructor
  · simp [Z2FAAuthFormSchema]
  · intro outcome s hout
    have hbad : Z2FAAuthFormSchema token = false := by
      rcases hout with h | h <;> simp [Z2FAAuthFormSchema] <;> omega
    simp [submit2FAForm, hbad]

/-- Witness for C6: the 3-character token `abc` is rejected and its
submission never reaches the callback. -/
theorem c6_token_validation_witness :
    (Z2FAAuthFormSchema "abc" = true ↔
      (4 ≤ ("abc").length ∧ ("abc").length ≤ 10)) ∧
    (submit2FAForm CallbackOutcome.ok formS0 "abc").callbackInvoked = false :=
  ⟨(c6_token_validation "abc").1,
   (c6_token_validation "abc").2 CallbackOutcome.ok formS0
     (Or.inl (by decide))⟩

/-- C7 counterexample: when the callback throws, the parsed error code is
stored in `formErrorCode`, but what the dialog renders is a fixed
generic alert — the code itself is not the displayed text, contrary to
the claim that the code is displayed. -/
theorem c7_claim_counterexample :
    (onFormSubmit (CallbackOutcome.threw errE1) formS0).finalState.formErrorCode =
      some errE1.appCode ∧
    (renderedErrorAlert
        (onFormSubmit (CallbackOutcome.threw errE1) formS0).finalState.formErrorCode).map
      ErrorAlert.description ≠ some errE1.appCode ∧
    (renderedErrorAlert
        (onFormSubmit (CallbackOutcome.threw errE1) formS0).finalState.formErrorCode).map
      ErrorAlert.description ≠ some errE1.raw := by
  refine ⟨rfl, by decide, by decide⟩

/-- C7 (amended): when the callback throws, the error is parsed into a
structured application error whose code is stored in `formErrorCode`; an
alert is rendered exactly when a code is stored, and its content is a
fixed generic title and description independent of the error, so the raw
error is never displayed. -/
theorem c7_error_code_stored_generic_alert (s : FormState) (err : ThrownError) :
    (onFormSubmit (CallbackOutcome.threw err) s).finalState.formErrorCode =
      some (AppError.parseError err).code ∧
    (∀ code, renderedErrorAlert (some code) =
      some { title := "Unauthorized",
             description := "We were unable to verify your details. Please try again or contact support" }) ∧
    renderedErrorAlert none = none := by
  exact ⟨rfl, fun _ => rfl, rfl⟩

/-- C10: one run of `onFormSubmit` always ends with
`isCurrentlyAuthenticating` false; `onOpenChange(false)` is called
exactly when the callback succeeded (and then the dialog state is
closed); and the error code is changed only when the callback threw, to
the parsed code. -/
theorem c10_submit_state_invariants (s : FormState) (outcome : CallbackOutcome) :
    ((onFormSubmit outcome s).finalState.isCurrentlyAuthenticating = false) ∧
    ((onFormSubmit outcome s).onOpenChangeCalls = [false] ↔
      outcome = CallbackOutcome.ok) ∧
    (match outcome with
     | CallbackOutcome.ok =>
         (onFormSubmit outcome s).finalState.formErrorCode = s.formErrorCode ∧
         (onFormSubmit outcome s).finalState.dialogOpen = false
     | CallbackOutcome.threw err =>
         (onFormSubmit outcome s).finalState.formErrorCode =
           some (AppError.parseError err).code ∧
         (onFormSubmit outcome s).finalState.dialogOpen = s.dialogOpen) := by
  cases outcome with
  | ok => exact ⟨rfl, by simp [onFormSubmit], rfl, rfl⟩
  | threw err => exact ⟨rfl, by simp [onFormSubmit], rfl, rfl⟩

end Documenso
